import Mathlib

/-!
Shallow embedding of the risk-decision pipeline of the
`ai-fake-news-defense-pro` repository (Python), and proofs of the spec
claims about it.

Conventions used throughout:
* Python floats are modelled as `ℚ` where the code only adds, multiplies,
  divides and compares (circuit breaker, quality gate, feedback metrics,
  adaptive weights), and as `ℝ` where the code calls `sqrt`, `exp` or `log`
  (uncertainty quantifier, calibrator, ensemble combination).
* `time.time()` is modelled by passing the current time explicitly.
* Python's `round(x, 4)` is modelled by `round4` (round to 4 decimal digits).
* Stages of the pipeline that the frozen claims do not inspect internally
  (regex based sub-checks, the numpy random generator, the fitted isotonic
  regressor, the md5 hash) are abstracted as explicit function parameters,
  universally quantified in the theorems, so every theorem covers the
  actual behaviour of those stages.
-/

namespace AIDefense

/-! ## CircuitBreaker (src/ai-engine/ml/config.py, class CircuitBreaker) -/

/-- State of `CircuitBreaker`: `threshold`, `reset_timeout`, `failure_count`,
`last_failure_time` (`None` initially) and `is_open`. -/
structure CircuitBreaker where
  threshold : ℕ
  resetTimeout : ℚ
  failureCount : ℕ
  lastFailureTime : Option ℚ
  isOpen : Bool
deriving Repr, DecidableEq

/-- `CircuitBreaker.__init__(threshold, reset_timeout)`. -/
def CircuitBreaker.init (threshold : ℕ) (resetTimeout : ℚ) : CircuitBreaker :=
  { threshold := threshold, resetTimeout := resetTimeout, failureCount := 0,
    lastFailureTime := none, isOpen := false }

/-- `CircuitBreaker.record_failure`, with the current clock value `now`
standing for `time.time()`. -/
def recordFailure (cb : CircuitBreaker) (now : ℚ) : CircuitBreaker :=
  let fc := cb.failureCount + 1
  { cb with
    failureCount := fc
    lastFailureTime := some now
    isOpen := if cb.threshold ≤ fc then true else cb.isOpen }

/-- `CircuitBreaker.record_success`. -/
def recordSuccess (cb : CircuitBreaker) : CircuitBreaker :=
  { cb with failureCount := 0, isOpen := false }

/-- `CircuitBreaker.can_execute`.  Returns the boolean result together with
the (possibly auto-closed) new state.  The Python guard
`if self.last_failure_time and ...` is falsy both for `None` and for the
float `0.0`, hence the `t ≠ 0` conjunct. -/
def canExecute (cb : CircuitBreaker) (now : ℚ) : Bool × CircuitBreaker :=
  if !cb.isOpen then (true, cb)
  else
    match cb.lastFailureTime with
    | none => (false, cb)
    | some t =>
        if t ≠ 0 ∧ cb.resetTimeout < now - t then
          (true, { cb with isOpen := false, failureCount := 0 })
        else (false, cb)

/-- Apply `record_failure` at each time in the list, in order. -/
def recordFailures (cb : CircuitBreaker) (times : List ℚ) : CircuitBreaker :=
  times.foldl recordFailure cb

/-- C3: with `threshold = 5`, after 5 consecutive `record_failure()` calls the
breaker is open and `can_execute()` returns `false` immediately (while no more
than `reset_timeout` seconds have elapsed since the last failure); once more
than `reset_timeout` seconds have elapsed since the last failure, the next
`can_execute()` call returns `true`, closes the breaker and resets
`failure_count` to 0; `record_success()` resets `failure_count` to 0 and
clears the open flag; `record_failure()` increments `failure_count` and sets
the open flag once `failure_count` reaches the threshold. -/
theorem circuitBreaker_lifecycle (rt t1 t2 t3 t4 t5 now now' : ℚ)
    (himm : now - t5 ≤ rt) (ht5 : 0 < t5) (helapsed : rt < now' - t5) :
    (canExecute (recordFailures (CircuitBreaker.init 5 rt) [t1, t2, t3, t4, t5]) now).1
      = false ∧
    (canExecute (recordFailures (CircuitBreaker.init 5 rt) [t1, t2, t3, t4, t5]) now').1
      = true ∧
    (canExecute (recordFailures (CircuitBreaker.init 5 rt) [t1, t2, t3, t4, t5]) now').2.isOpen
      = false ∧
    (canExecute (recordFailures (CircuitBreaker.init 5 rt) [t1, t2, t3, t4, t5]) now').2.failureCount
      = 0 ∧
    (∀ cb : CircuitBreaker,
      (recordSuccess cb).failureCount = 0 ∧ (recordSuccess cb).isOpen = false) ∧
    (∀ (cb : CircuitBreaker) (t : ℚ),
      (recordFailure cb t).failureCount = cb.failureCount + 1 ∧
      (recordFailure cb t).isOpen =
        (if cb.threshold ≤ cb.failureCount + 1 then true else cb.isOpen)) := by
  have hst : recordFailures (CircuitBreaker.init 5 rt) [t1, t2, t3, t4, t5] =
      { threshold := 5, resetTimeout := rt, failureCount := 5,
        lastFailureTime := some t5, isOpen := true } := by
    simp [recordFailures, recordFailure, CircuitBreaker.init]
  have hclosed : ¬ (t5 ≠ 0 ∧ rt < now - t5) := by
    rintro ⟨-, h⟩; exact absurd himm (not_le.mpr h)
  refine ⟨?_, ?_, ?_, ?_, ?_, ?_⟩
  · simp [hst, canExecute, hclosed]
  · simp [hst, canExecute, ne_of_gt ht5, helapsed]
  · simp [hst, canExecute, ne_of_gt ht5, helapsed]
  · simp [hst, canExecute, ne_of_gt ht5, helapsed]
  · intro cb; exact ⟨rfl, rfl⟩
  · intro cb t; exact ⟨rfl, rfl⟩

/-- Witness for `circuitBreaker_lifecycle` at concrete times 1..5, with
`reset_timeout = 60`, probing at times 5 (still open) and 100 (auto-close). -/
theorem circuitBreaker_lifecycle_witness :
    (canExecute (recordFailures (CircuitBreaker.init 5 60) [1, 2, 3, 4, 5]) 5).1 = false ∧
    (canExecute (recordFailures (CircuitBreaker.init 5 60) [1, 2, 3, 4, 5]) 100).1 = true ∧
    (canExecute (recordFailures (CircuitBreaker.init 5 60) [1, 2, 3, 4, 5]) 100).2.failureCount = 0 :=
  have h := circuitBreaker_lifecycle 60 1 2 3 4 5 5 100 (by norm_num) (by norm_num) (by norm_num)
  ⟨h.1, h.2.1, h.2.2.2.1⟩

/-! ## DataQualityGate (src/ai-engine/ml/core/validation/data_quality.py)

The gate's sub-checks that the claims never inspect internally
(`check_language`, `check_truncation`, `check_content_quality`,
`check_public_entities` — all regex / vocabulary heuristics) are abstracted
as function-valued parameters bundled in `QualityChecks`; the theorems
quantify over them, so they cover the concrete heuristics.  `check_length`
and `check_duplicate` are embedded in full.  `md5` is modelled as an
injective function, i.e. the stored hash is the normalized string itself. -/

/-- `QualityIssue` (only the fields the claims mention: `code`, `severity`;
the human-readable message and the details dict are presentation). -/
structure QualityIssue where
  code : String
  severity : String
deriving Repr, DecidableEq

/-- The outcome of `DataQualityGate.validate`. -/
structure DataQualityResult where
  dataQualityScore : ℚ
  issues : List QualityIssue
  usable : Bool
  checksPassed : List String
  checksFailed : List String
deriving Repr

/-- The abstracted regex/vocabulary sub-checks of the gate:
`check_language` returns `(is_valid_language, ratio)`, `check_truncation`
whether the text looks truncated, `check_content_quality` a sub-score with a
list of issue codes, `check_public_entities` `(found, entities)`. -/
structure QualityChecks where
  language : String → Bool × ℚ
  truncation : String → Bool
  contentQuality : String → ℚ × List String
  publicEntities : String → Bool × List String

/-- Clamp a rational to [0, 1] (`max(0.0, min(1.0, x))`). -/
def clamp01 (x : ℚ) : ℚ := max 0 (min 1 x)

/-- Python `round(x, 4)` on a rational. -/
def round4Q (x : ℚ) : ℚ := (round (x * 10000) : ℤ) / 10000

/-- One step of whitespace-run collapsing; the boolean records whether the
previous character was whitespace. -/
def collapseWs : Bool → List Char → List Char
  | _, [] => []
  | prevWs, c :: cs =>
      if c.isWhitespace then
        if prevWs then collapseWs true cs else ' ' :: collapseWs true cs
      else c :: collapseWs false cs

/-- Strip leading and trailing whitespace (`str.strip()`). -/
def trimChars (l : List Char) : List Char :=
  ((l.dropWhile Char.isWhitespace).reverse.dropWhile Char.isWhitespace).reverse

/-- `DataQualityGate._compute_hash`: `re.sub(r'\s+', ' ', text.lower().strip())`,
with the md5 digest of the normalized string modelled by the normalized string
itself (md5 treated as injective) and `str.lower()` modelled by ASCII
case-folding. -/
def normalizeText (s : String) : String :=
  ⟨collapseWs false (trimChars (s.data.map Char.toLower))⟩

/-- `DataQualityGate.check_length`: valid iff `10 ≤ len(text) ≤ 50000`.
Returns the validity flag and the character count. -/
def checkLength (text : String) : Bool × ℕ :=
  (decide (10 ≤ text.length ∧ text.length ≤ 50000), text.length)

/-- `DataQualityGate.check_duplicate` acting on the seen-hash set, modelled as
a list in iteration order: returns `(is_duplicate, hash, new_seen)`; on a miss
the hash is added, and if the set then exceeds 10000 entries the first 5000
entries in iteration order are discarded. -/
def checkDuplicate (seen : List String) (text : String) : Bool × String × List String :=
  let h := normalizeText text
  if h ∈ seen then (true, h, seen)
  else
    let s := seen ++ [h]
    if 10000 < s.length then (false, h, s.drop 5000) else (false, h, s)

/-- The issues accumulated by `DataQualityGate.validate`, in source order:
language, length, truncation, duplicate, then content-quality codes. -/
def qualityIssues (ck : QualityChecks) (seen : List String) (text : String) :
    List QualityIssue :=
  (if (ck.language text).1 then [] else [⟨"WRONG_LANGUAGE", "HIGH"⟩]) ++
  (if (checkLength text).1 then []
   else [⟨"INVALID_LENGTH", if (checkLength text).2 < 10 then "HIGH" else "MEDIUM"⟩]) ++
  (if ck.truncation text then [⟨"TRUNCATED_CONTENT", "MEDIUM"⟩] else []) ++
  (if (checkDuplicate seen text).1 then [⟨"DUPLICATE_CONTENT", "LOW"⟩] else []) ++
  (ck.contentQuality text).2.map (fun c => ⟨c, "LOW"⟩)

/-- The quality score of `DataQualityGate.validate`: 1.0 minus the fixed
penalties of the failed checks, multiplied by the content-quality sub-score,
clamped to [0, 1]. -/
def qualityScore (ck : QualityChecks) (seen : List String) (text : String) : ℚ :=
  let s1 : ℚ := 1 - (if (ck.language text).1 then 0 else 3/10)
  let s2 : ℚ := s1 - (if (checkLength text).1 then 0 else 1/4)
  let s3 : ℚ := s2 - (if ck.truncation text then 3/20 else 0)
  let s4 : ℚ := s3 - (if (checkDuplicate seen text).1 then 1/10 else 0)
  clamp01 (s4 * (ck.contentQuality text).1)

/-- `DataQualityGate.validate` (non-strict flag `strict` corresponds to
`strict_mode`).  Returns the result together with the updated seen-hash set. -/
def validateQ (ck : QualityChecks) (strict : Bool) (seen : List String)
    (text : String) : DataQualityResult × List String :=
  let issues := qualityIssues ck seen text
  let q := qualityScore ck seen text
  let highCount := issues.countP (fun i => i.severity == "HIGH")
  let usable0 := decide (3/5 ≤ q) && (highCount == 0)
  let usable := if strict && !issues.isEmpty then false else usable0
  ({ dataQualityScore := round4Q q
     issues := issues
     usable := usable
     checksPassed :=
       (if (ck.language text).1 then ["language_check"] else []) ++
       (if (checkLength text).1 then ["length_check"] else []) ++
       (if ck.truncation text then [] else ["truncation_check"]) ++
       (if (checkDuplicate seen text).1 then [] else ["duplicate_check"]) ++
       ["entity_check"]
     checksFailed :=
       (if (ck.language text).1 then [] else ["language_check"]) ++
       (if (checkLength text).1 then [] else ["length_check"]) ++
       (if ck.truncation text then ["truncation_check"] else []) ++
       (if (checkDuplicate seen text).1 then ["duplicate_check"] else []) ++
       (ck.contentQuality text).2.map (fun c => "content_" ++ c.toLower) },
   (checkDuplicate seen text).2.2)

/-- A concrete instance of the abstracted sub-checks, used in witnesses:
every abstracted check passes and reports no issue. -/
def constChecks : QualityChecks :=
  { language := fun _ => (true, 1)
    truncation := fun _ => false
    contentQuality := fun _ => (1, [])
    publicEntities := fun _ => (false, []) }

/-- C4: `DataQualityGate.validate` returns `usable = true` exactly when the
final quality score is at least 0.6, no issue has HIGH severity and, in
strict mode, there is no issue at all; and every text of length 5 yields
`usable = false` with an `INVALID_LENGTH` issue of severity HIGH. -/
theorem dataQualityGate_usable_iff (ck : QualityChecks) (strict : Bool)
    (seen : List String) (text : String) :
    ((validateQ ck strict seen text).1.usable = true ↔
      (3/5 ≤ qualityScore ck seen text ∧
       (∀ i ∈ qualityIssues ck seen text, i.severity ≠ "HIGH") ∧
       (strict = true → qualityIssues ck seen text = []))) ∧
    (text.length = 5 →
      (validateQ ck strict seen text).1.usable = false ∧
      (⟨"INVALID_LENGTH", "HIGH"⟩ : QualityIssue) ∈ (validateQ ck strict seen text).1.issues) := by
  have hval : (validateQ ck strict seen text).1.usable
      = (if strict && !(qualityIssues ck seen text).isEmpty then false
         else (decide (3/5 ≤ qualityScore ck seen text)
               && ((qualityIssues ck seen text).countP (fun i => i.severity == "HIGH") == 0))) := rfl
  have hiss : (validateQ ck strict seen text).1.issues = qualityIssues ck seen text := rfl
  constructor
  · rw [hval]
    generalize qualityIssues ck seen text = I
    generalize qualityScore ck seen text = q
    cases strict <;> cases I <;>
      simp [List.countP_eq_zero, List.countP_cons, and_assoc, and_comm]
  · intro h5
    have hl1 : (checkLength text).1 = false := by simp [checkLength, h5]
    have hl2 : (checkLength text).2 = 5 := by simp [checkLength, h5]
    have hmem : (⟨"INVALID_LENGTH", "HIGH"⟩ : QualityIssue) ∈ qualityIssues ck seen text := by
      simp [qualityIssues, hl1, hl2]
    refine ⟨?_, hiss ▸ hmem⟩
    have hcount : (qualityIssues ck seen text).countP (fun i => i.severity == "HIGH") ≠ 0 := by
      intro h0
      exact absurd (List.countP_eq_zero.mp h0 _ hmem) (by decide)
    rw [hval]
    split
    · rfl
    · simp [hcount]

/-- Witness for `dataQualityGate_usable_iff`: the 5-character text `"abcde"`
is rejected with an `INVALID_LENGTH` / HIGH issue. -/
theorem dataQualityGate_usable_iff_witness :
    "abcde".length = 5 ∧
    (validateQ constChecks false [] "abcde").1.usable = false ∧
    (⟨"INVALID_LENGTH", "HIGH"⟩ : QualityIssue) ∈ (validateQ constChecks false [] "abcde").1.issues :=
  have h := (dataQualityGate_usable_iff constChecks false [] "abcde").2 rfl
  ⟨rfl, h.1, h.2⟩

/-- Seen-set evolution when the same text is submitted three times. -/
def dupText : String := "Nova denuncia de corrupcao na prefeitura"

/-- C9 counterexample: the gate reports `DUPLICATE_CONTENT` not only on the
second submission of a previously seen text but on the third as well (the
hash stays in the seen set), refuting "exactly on the second submission". -/
theorem duplicate_not_second_only :
    (⟨"DUPLICATE_CONTENT", "LOW"⟩ : QualityIssue) ∉
      (validateQ constChecks false [] dupText).1.issues ∧
    (⟨"DUPLICATE_CONTENT", "LOW"⟩ : QualityIssue) ∈
      (validateQ constChecks false (validateQ constChecks false [] dupText).2 dupText).1.issues ∧
    (⟨"DUPLICATE_CONTENT", "LOW"⟩ : QualityIssue) ∈
      (validateQ constChecks false
        (validateQ constChecks false (validateQ constChecks false [] dupText).2 dupText).2
        dupText).1.issues := by
  refine ⟨?_, ?_, ?_⟩ <;> decide

/-- C9 as amended: `check_duplicate` flags a duplicate exactly when the
normalized text is already in the seen set (hence on every submission after
the first, as long as the hash remains in the set); the set stays capped at
10000 entries; on overflow the first 5000 entries in iteration order are
evicted. -/
theorem checkDuplicate_semantics (seen : List String) (text : String) :
    ((checkDuplicate seen text).1 = true ↔ normalizeText text ∈ seen) ∧
    (seen.length ≤ 10000 → (checkDuplicate seen text).2.2.length ≤ 10000) ∧
    (normalizeText text ∉ seen → 10000 < seen.length + 1 →
      (checkDuplicate seen text).2.2 = (seen ++ [normalizeText text]).drop 5000) := by
  by_cases hm : normalizeText text ∈ seen
  · have he : checkDuplicate seen text = (true, normalizeText text, seen) := by
      simp only [checkDuplicate]; rw [if_pos hm]
    rw [he]
    exact ⟨by simp [hm], fun h => h, fun habs _ => absurd hm habs⟩
  · by_cases ho : 10000 < (seen ++ [normalizeText text]).length
    · have he : checkDuplicate seen text =
          (false, normalizeText text, (seen ++ [normalizeText text]).drop 5000) := by
        simp only [checkDuplicate]; rw [if_neg hm, if_pos ho]
      rw [he]
      refine ⟨by simp [hm], ?_, fun _ _ => rfl⟩
      intro hlen
      simp only [List.length_drop, List.length_append, List.length_singleton]
      omega
    · have he : checkDuplicate seen text =
          (false, normalizeText text, seen ++ [normalizeText text]) := by
        simp only [checkDuplicate]; rw [if_neg hm, if_neg ho]
      rw [he]
      simp only [List.length_append, List.length_singleton, not_lt] at ho
      refine ⟨by simp [hm], fun _ => ?_, fun _ hbig => ?_⟩
      · simp only [List.length_append, List.length_singleton]
        omega
      · omega

/-- Witness for `checkDuplicate_semantics`: a normalized resubmission of an
already seen text is flagged. -/
theorem checkDuplicate_semantics_witness :
    (checkDuplicate ["ja visto"] "Ja  Visto").1 = true ∧
    (checkDuplicate ["ja visto"] "Ja  Visto").2.2.length ≤ 10000 :=
  ⟨(checkDuplicate_semantics ["ja visto"] "Ja  Visto").1.mpr (by decide),
   (checkDuplicate_semantics ["ja visto"] "Ja  Visto").2.1 (by decide)⟩

/-! ## FeedbackLoop (src/ai-engine/ml/core/feedback/learning.py)

Python dicts keyed by strings are modelled as insertion-ordered association
lists. -/

/-- Dict lookup with default. -/
def assocGet {α : Type} (l : List (String × α)) (k : String) (d : α) : α :=
  match l.find? (fun p => p.1 == k) with
  | some p => p.2
  | none => d

/-- Lookup in the empty dict yields the default. -/
theorem assocGet_nil {α : Type} (k : String) (d : α) : assocGet [] k d = d := rfl

/-- Lookup steps through the head binding first. -/
theorem assocGet_cons {α : Type} (k' k : String) (v : α) (l : List (String × α)) (d : α) :
    assocGet ((k', v) :: l) k d = if k' = k then v else assocGet l k d := by
  by_cases h : k' = k
  · subst h
    simp [assocGet, List.find?]
  · have hb : ((k', v).1 == k) = false := by simpa using h
    simp only [assocGet, List.find?, hb, if_neg h]

/-- Dict update: replace in place if present, append otherwise. -/
def assocSet {α : Type} (l : List (String × α)) (k : String) (v : α) :
    List (String × α) :=
  if l.any (fun p => p.1 == k) then
    l.map (fun p => if p.1 == k then (k, v) else p)
  else l ++ [(k, v)]

/-- `FeedbackType`. -/
inductive FeedbackType where
  | correct
  | falsePositive
  | falseNegative
  | override
deriving Repr, DecidableEq

/-- `PerformanceMetrics` counters. -/
structure PerformanceMetrics where
  totalPredictions : ℕ
  correctPredictions : ℕ
  falsePositives : ℕ
  falseNegatives : ℕ
  overrides : ℕ
deriving Repr, DecidableEq

/-- Fresh `PerformanceMetrics()`. -/
def PerformanceMetrics.init : PerformanceMetrics := ⟨0, 0, 0, 0, 0⟩

/-- `PerformanceMetrics.accuracy`. -/
def PerformanceMetrics.accuracy (m : PerformanceMetrics) : ℚ :=
  if m.totalPredictions = 0 then 0
  else (m.correctPredictions : ℚ) / m.totalPredictions

/-- `PerformanceMetrics.precision`: note that the code computes
`tp = correct_predictions - false_negatives` (a Python int, possibly
negative). -/
def PerformanceMetrics.precision (m : PerformanceMetrics) : ℚ :=
  let tp : ℚ := (m.correctPredictions : ℚ) - (m.falseNegatives : ℚ)
  let fp : ℚ := (m.falsePositives : ℚ)
  if tp + fp = 0 then 0 else tp / (tp + fp)

/-- `PerformanceMetrics.recall`: the code computes
`tp = correct_predictions - false_positives`. -/
def PerformanceMetrics.recall (m : PerformanceMetrics) : ℚ :=
  let tp : ℚ := (m.correctPredictions : ℚ) - (m.falsePositives : ℚ)
  let fn : ℚ := (m.falseNegatives : ℚ)
  if tp + fn = 0 then 0 else tp / (tp + fn)

/-- `PerformanceMetrics.f1_score`. -/
def PerformanceMetrics.f1Score (m : PerformanceMetrics) : ℚ :=
  let p := m.precision
  let r := m.recall
  if p + r = 0 then 0 else 2 * (p * r) / (p + r)

/-- `FeedbackRecord` (the timestamp, agent id and notes carry no decision
logic and are omitted). -/
structure FeedbackRecord where
  scanId : String
  originalPrediction : String
  originalScore : ℚ
  feedbackType : FeedbackType
  correctedLabel : String
  domain : Option String
  modelSignals : List (String × ℚ)
deriving Repr, DecidableEq

/-- `FeedbackLoop` state. -/
structure FeedbackLoop where
  feedbackRecords : List FeedbackRecord
  metricsByDomain : List (String × PerformanceMetrics)
  metricsByModel : List (String × PerformanceMetrics)
  thresholdSuggestions : List (String × ℚ)
  overallMetrics : PerformanceMetrics
deriving Repr

/-- Fresh `FeedbackLoop()`. -/
def FeedbackLoop.start : FeedbackLoop := ⟨[], [], [], [], .init⟩

/-- Increment the counter selected by the feedback type (plus the total). -/
def bumpMetrics (m : PerformanceMetrics) (ft : FeedbackType) : PerformanceMetrics :=
  let m := { m with totalPredictions := m.totalPredictions + 1 }
  match ft with
  | .correct => { m with correctPredictions := m.correctPredictions + 1 }
  | .falsePositive => { m with falsePositives := m.falsePositives + 1 }
  | .falseNegative => { m with falseNegatives := m.falseNegatives + 1 }
  | .override => { m with overrides := m.overrides + 1 }

/-- Per-model-signal update: total always, correct only on CORRECT. -/
def bumpModelMetrics (m : PerformanceMetrics) (ft : FeedbackType) : PerformanceMetrics :=
  let m := { m with totalPredictions := m.totalPredictions + 1 }
  if ft = .correct then { m with correctPredictions := m.correctPredictions + 1 } else m

/-- `FeedbackLoop._update_metrics`. -/
def updateMetricsFL (st : FeedbackLoop) (r : FeedbackRecord) : FeedbackLoop :=
  let domain := r.domain.getD "general"
  let dm := bumpMetrics (assocGet st.metricsByDomain domain .init) r.feedbackType
  let byModel := r.modelSignals.foldl
    (fun acc p => assocSet acc p.1 (bumpModelMetrics (assocGet acc p.1 .init) r.feedbackType))
    st.metricsByModel
  { st with
    overallMetrics := bumpMetrics st.overallMetrics r.feedbackType
    metricsByDomain := assocSet st.metricsByDomain domain dm
    metricsByModel := byModel }

/-- `FeedbackLoop._analyze_and_suggest`. -/
def analyzeAndSuggest (st : FeedbackLoop) : FeedbackLoop :=
  { st with thresholdSuggestions :=
      st.metricsByDomain.foldl (fun acc p =>
        let m := p.2
        if m.totalPredictions < 20 then acc
        else
          let fpRate : ℚ := (m.falsePositives : ℚ) / (m.totalPredictions : ℚ)
          let fnRate : ℚ := (m.falseNegatives : ℚ) / (m.totalPredictions : ℚ)
          let adj : ℚ :=
            if 3/20 < fpRate then -(1/20) * (fpRate / (3/20))
            else if 3/20 < fnRate then (1/20) * (fnRate / (3/20))
            else 0
          assocSet acc p.1 (round4Q adj)) st.thresholdSuggestions }

/-- `FeedbackLoop.record_feedback`: append (bounded to the last 10000),
update metrics, and run the suggestion analysis every 50th record. -/
def recordFeedbackFL (st : FeedbackLoop) (r : FeedbackRecord) : FeedbackLoop :=
  let recs := st.feedbackRecords ++ [r]
  let recs := if 10000 < recs.length then recs.drop (recs.length - 10000) else recs
  let st1 := updateMetricsFL { st with feedbackRecords := recs } r
  if recs.length % 50 = 0 then analyzeAndSuggest st1 else st1

/-- `FeedbackLoop.submit_correction`: classify the correction and record it. -/
def submitCorrection (st : FeedbackLoop) (scanId origPred : String)
    (origScore : ℚ) (corrected : String) (domain : Option String)
    (signals : List (String × ℚ)) : FeedbackLoop :=
  let ft : FeedbackType :=
    if origPred = corrected then .correct
    else if corrected = "NO_RISK" ∨ corrected = "LOW_RISK" ∨ corrected = "REAL" then .falsePositive
    else if corrected = "HIGH_RISK" ∨ corrected = "FAKE" then .falseNegative
    else .override
  recordFeedbackFL st ⟨scanId, origPred, origScore, ft, corrected, domain, signals⟩

/-- The feedback history of C10: three false positives followed by one false
negative, submitted through `submit_correction` from a fresh loop. -/
def c10State : FeedbackLoop :=
  submitCorrection
    (submitCorrection
      (submitCorrection
        (submitCorrection FeedbackLoop.start "s1" "HIGH_RISK" (9/10) "NO_RISK" none [])
        "s2" "HIGH_RISK" (9/10) "NO_RISK" none [])
      "s3" "HIGH_RISK" (9/10) "NO_RISK" none [])
    "s4" "NO_RISK" (1/10) "HIGH_RISK" none []

/-- C10: a reachable feedback history (3 false positives, 1 false negative,
no correct prediction) on which `PerformanceMetrics.precision` is negative
and `PerformanceMetrics.recall` exceeds 1 — the metrics are not
probabilities. -/
theorem feedback_metrics_not_probabilities :
    c10State.overallMetrics.precision < 0 ∧ 1 < c10State.overallMetrics.recall := by
  have h : c10State.overallMetrics =
      { totalPredictions := 4, correctPredictions := 0, falsePositives := 3,
        falseNegatives := 1, overrides := 0 } := rfl
  rw [h]
  constructor <;>
    norm_num [PerformanceMetrics.precision, PerformanceMetrics.recall]

/-! ## UncertaintyQuantifier (src/ai-engine/ml/core/uncertainty/quantifier.py)

Floats are modelled as `ℝ` here because the code calls `np.sqrt`/`np.std`.
`monte_carlo_dropout` draws noise from a numpy generator seeded
deterministically from the score; its epistemic output is therefore a pure
function of the raw score, modelled by an arbitrary function parameter
`mc : ℝ → ℝ` over which the theorems quantify. -/

noncomputable section

/-- Population mean, `np.mean`. -/
def pmean (l : List ℝ) : ℝ := l.sum / l.length

/-- Population variance (ddof = 0), as used by `np.std`. -/
def pvariance (l : List ℝ) : ℝ := ((l.map (fun x => (x - pmean l) ^ 2)).sum) / l.length

/-- `np.std` (population standard deviation). -/
def pstd (l : List ℝ) : ℝ := Real.sqrt (pvariance l)

/-- `max` of a Python list (first element as the seed). -/
def listMax : List ℝ → ℝ
  | [] => 0
  | x :: xs => xs.foldl max x

/-- `min` of a Python list. -/
def listMin : List ℝ → ℝ
  | [] => 0
  | x :: xs => xs.foldl min x

/-- Clamp a real to [0, 1]. -/
def clampR (x : ℝ) : ℝ := max 0 (min 1 x)

/-- Python `round(x, 4)` on a real. -/
def round4R (x : ℝ) : ℝ := (round (x * 10000) : ℤ) / 10000

/-- `UncertaintyQuantifier.compute_aleatoric_uncertainty`. -/
def computeAleatoric (confidence : ℝ) : ℝ :=
  if 0.95 ≤ confidence then 0.02
  else if 0.85 ≤ confidence then 0.05
  else if 0.7 ≤ confidence then 0.1
  else 0.15 + (0.7 - confidence) * 0.3

/-- `UncertaintyQuantifier.ensemble_disagreement`: 0 for fewer than two
scores, else the standard deviation of the scores. -/
def ensembleDisagreement (scores : List ℝ) : ℝ :=
  if scores.length < 2 then 0 else pstd scores

/-- The combined uncertainty computed inside `quantify`:
`min(sqrt(epistemic² + aleatoric²), 1)`, blended with the ensemble
disagreement when a non-empty ensemble-scores dict is passed (Python
truthiness: `None` and `{}` both skip the blend). -/
def totalUncertaintyUQ (epistemic aleatoric : ℝ) (scores : Option (List ℝ)) : ℝ :=
  let t := min (Real.sqrt (epistemic ^ 2 + aleatoric ^ 2)) 1
  match scores with
  | none => t
  | some [] => t
  | some (s :: rest) => (t + ensembleDisagreement (s :: rest)) / 2

/-- The agreement computed inside `quantify`: `1 − total`, overridden by
`1 − (max − min)` when at least two ensemble scores are passed. -/
def agreementUQ (total : ℝ) (scores : Option (List ℝ)) : ℝ :=
  match scores with
  | some (a :: b :: rest) => 1 - (listMax (a :: b :: rest) - listMin (a :: b :: rest))
  | _ => 1 - total

/-- Which abstention condition fired (the numeric payload of the Python
f-string message is not modelled). -/
inductive AbstainReason where
  | highUncertainty
  | lowConfidence
  | lowAgreement
deriving Repr, DecidableEq

/-- `UncertaintyQuantifier.should_abstain`. -/
def shouldAbstainUQ (threshold uncertainty confidence agreement : ℝ) :
    Bool × Option AbstainReason :=
  if threshold < uncertainty then (true, some .highUncertainty)
  else if confidence < 0.6 then (true, some .lowConfidence)
  else if agreement < 0.6 then (true, some .lowAgreement)
  else (false, none)

/-- `UncertaintyQuantifier._get_risk_label`: first match over the
`RISK_LABELS` bands in dict insertion order, then the fallback. -/
def getRiskLabel (score : ℝ) : String :=
  if 0.7 ≤ score ∧ score < 1 then "HIGH_RISK"
  else if 0.4 ≤ score ∧ score < 0.7 then "MEDIUM_RISK"
  else if 0.15 ≤ score ∧ score < 0.4 then "LOW_RISK"
  else if 0 ≤ score ∧ score < 0.15 then "NO_RISK"
  else if 0.7 ≤ score then "HIGH_RISK"
  else "NO_RISK"

/-- `UncertaintyResult`. -/
structure UncertaintyResult where
  prediction : String
  confidence : ℝ
  uncertainty : ℝ
  epistemicUncertainty : ℝ
  aleatoricUncertainty : ℝ
  abstain : Bool
  abstainReason : Option AbstainReason

/-- `UncertaintyQuantifier.quantify`, parametrized by the deterministic
epistemic estimator `mc` (`monte_carlo_dropout`'s second output) and the
abstain threshold (constructor default 0.25). -/
def quantifyUQ (mc : ℝ → ℝ) (threshold rawScore confidence : ℝ)
    (ensembleScores : Option (List ℝ)) : UncertaintyResult :=
  let epistemic := mc rawScore
  let aleatoric := computeAleatoric confidence
  let total := totalUncertaintyUQ epistemic aleatoric ensembleScores
  let agreement := agreementUQ total ensembleScores
  let ar := shouldAbstainUQ threshold total confidence agreement
  { prediction := if ar.1 then "HUMAN_REVIEW" else getRiskLabel rawScore
    confidence := round4R confidence
    uncertainty := round4R total
    epistemicUncertainty := round4R epistemic
    aleatoricUncertainty := round4R aleatoric
    abstain := ar.1
    abstainReason := ar.2 }

end

/-- `should_abstain` fires exactly on one of its three conditions. -/
theorem shouldAbstainUQ_fst (th u c a : ℝ) :
    (shouldAbstainUQ th u c a).1 = true ↔ (th < u ∨ c < 0.6 ∨ a < 0.6) := by
  unfold shouldAbstainUQ
  split_ifs with h1 h2 h3 <;> simp_all

/-- C1: for every raw score, confidence and optional ensemble-scores dict,
`quantify` (at the default abstain threshold 0.25) abstains iff the combined
total uncertainty exceeds 0.25, or confidence < 0.6, or agreement < 0.6; and
the returned label is `HUMAN_REVIEW` whenever it abstains, else the risk
label of the raw score. -/
theorem quantify_abstain_iff (mc : ℝ → ℝ) (rawScore confidence : ℝ)
    (scores : Option (List ℝ)) :
    ((quantifyUQ mc 0.25 rawScore confidence scores).abstain = true ↔
      (0.25 < totalUncertaintyUQ (mc rawScore) (computeAleatoric confidence) scores ∨
       confidence < 0.6 ∨
       agreementUQ (totalUncertaintyUQ (mc rawScore) (computeAleatoric confidence) scores)
         scores < 0.6)) ∧
    ((quantifyUQ mc 0.25 rawScore confidence scores).prediction =
      if (quantifyUQ mc 0.25 rawScore confidence scores).abstain
      then "HUMAN_REVIEW" else getRiskLabel rawScore) := by
  constructor
  · exact shouldAbstainUQ_fst 0.25
      (totalUncertaintyUQ (mc rawScore) (computeAleatoric confidence) scores) confidence
      (agreementUQ (totalUncertaintyUQ (mc rawScore) (computeAleatoric confidence) scores) scores)
  · cases h : (shouldAbstainUQ 0.25
        (totalUncertaintyUQ (mc rawScore) (computeAleatoric confidence) scores) confidence
        (agreementUQ (totalUncertaintyUQ (mc rawScore) (computeAleatoric confidence) scores)
          scores)).1 <;>
      simp [quantifyUQ, h]

/-! ## ConfidenceManager (src/ai-engine/ml/core/confidence/thresholds.py) -/

/-- `RiskLevel`. -/
inductive RiskLevel where
  | noRisk
  | lowRisk
  | mediumRisk
  | highRisk
  | humanReview
deriving Repr, DecidableEq

/-- `Verdict`. -/
inductive Verdict where
  | real
  | unverified
  | fake
  | abstain
deriving Repr, DecidableEq

/-- `ThresholdConfig` (defaults of the dataclass). -/
structure ThresholdConfig where
  noRiskMax : ℝ
  lowRiskMax : ℝ
  mediumRiskMax : ℝ
  highRiskMin : ℝ
  uncertaintyAbstain : ℝ
  agreementMin : ℝ

/-- `ConfidenceManager.DEFAULT_THRESHOLDS` (`ThresholdConfig()`). -/
noncomputable def defaultThresholds : ThresholdConfig :=
  { noRiskMax := 0.15, lowRiskMax := 0.35, mediumRiskMax := 0.65,
    highRiskMin := 0.65, uncertaintyAbstain := 0.25, agreementMin := 0.60 }

/-- `DomainThresholds`. -/
structure DomainThresholds where
  scoreAdjustment : ℝ
  uncertaintyWeight : ℝ
  requireHigherAgreement : Bool
  extraCaution : Bool

/-- `ConfidenceManager.get_domain_config` over `DOMAIN_CONFIGS`
(`None` and unknown domains fall back to `"general"`). -/
noncomputable def domainConfig (domain : Option String) : DomainThresholds :=
  match domain with
  | some "political" => ⟨-0.10, 1.5, true, true⟩
  | some "defamation" => ⟨-0.05, 1.3, true, true⟩
  | some "misinformation" => ⟨0, 1.2, false, false⟩
  | some "impersonation" => ⟨0.05, 1.0, false, false⟩
  | _ => ⟨0, 1.0, false, false⟩

/-- `ConfidenceManager.compute_adjusted_score`: domain offset, minus the
extra-caution penalty `(raw − 0.5) × 0.1` for high raw scores, clamped. -/
noncomputable def computeAdjustedScore (rawScore : ℝ) (domain : Option String) : ℝ × ℝ :=
  let dc := domainConfig domain
  let adjustment :=
    if dc.extraCaution = true ∧ 0.5 < rawScore
    then dc.scoreAdjustment - (rawScore - 0.5) * 0.1
    else dc.scoreAdjustment
  (clampR (rawScore + adjustment), adjustment)

/-- Which domain-aware abstention condition fired. -/
inductive CMReason where
  | uncertaintyHigh
  | agreementLow
  | domainCaution
deriving Repr, DecidableEq

/-- `ConfidenceManager.should_abstain`. -/
noncomputable def shouldAbstainCM (cfg : ThresholdConfig) (uncertainty agreement : ℝ)
    (domain : Option String) : Bool × Option CMReason :=
  let dc := domainConfig domain
  let weighted := uncertainty * dc.uncertaintyWeight
  if cfg.uncertaintyAbstain < weighted then (true, some .uncertaintyHigh)
  else
    let agreementThreshold :=
      if dc.requireHigherAgreement then cfg.agreementMin + 0.1 else cfg.agreementMin
    if agreement < agreementThreshold then (true, some .agreementLow)
    else if dc.extraCaution = true ∧ 0.15 < uncertainty then (true, some .domainCaution)
    else (false, none)

/-- `ConfidenceManager.get_risk_level`. -/
noncomputable def getRiskLevelCM (cfg : ThresholdConfig) (score : ℝ) : RiskLevel :=
  if score < cfg.noRiskMax then .noRisk
  else if score < cfg.lowRiskMax then .lowRisk
  else if score < cfg.mediumRiskMax then .mediumRisk
  else .highRisk

/-- `ConfidenceManager.get_verdict`. -/
def getVerdictCM (riskLevel : RiskLevel) (shouldAbstain : Bool) : Verdict :=
  if shouldAbstain then .abstain
  else if riskLevel = .highRisk then .fake
  else if riskLevel = .noRisk then .real
  else .unverified

/-- `ConfidenceManager._compute_decision_confidence`. -/
noncomputable def computeDecisionConfidence (score uncertainty agreement : ℝ)
    (abstaining : Bool) : ℝ :=
  if abstaining then 0.5
  else round4R (clampR ((1 - |0.5 - score|) * 0.3 + (1 - uncertainty) * 0.3 + agreement * 0.4))

/-- `DecisionResult`. -/
structure DecisionResult where
  riskLevel : RiskLevel
  verdict : Verdict
  confidence : ℝ
  shouldAbstain : Bool
  abstainReason : Option CMReason
  thresholdUsed : ℝ
  domainAdjustment : ℝ

/-- One entry of the bounded decision log kept by `_record_decision`. -/
structure DecisionLogEntry where
  riskLevel : RiskLevel
  verdict : Verdict
  confidence : ℝ
  abstained : Bool
  domain : Option String

/-- `ConfidenceManager.make_decision`, threading the decision log
(`_record_decision` appends and keeps the last 1000 entries). -/
noncomputable def makeDecision (cfg : ThresholdConfig) (history : List DecisionLogEntry)
    (calibratedScore uncertainty agreement : ℝ) (domain : Option String) :
    DecisionResult × List DecisionLogEntry :=
  let adj := computeAdjustedScore calibratedScore domain
  let ar := shouldAbstainCM cfg uncertainty agreement domain
  let riskLevel := if ar.1 then RiskLevel.humanReview else getRiskLevelCM cfg adj.1
  let verdict := getVerdictCM riskLevel ar.1
  let confidence := computeDecisionConfidence adj.1 uncertainty agreement ar.1
  let result : DecisionResult :=
    { riskLevel := riskLevel, verdict := verdict, confidence := confidence,
      shouldAbstain := ar.1, abstainReason := ar.2,
      thresholdUsed := adj.1, domainAdjustment := adj.2 }
  let log := history ++ [⟨riskLevel, verdict, confidence, ar.1, domain⟩]
  (result, if 1000 < log.length then log.drop (log.length - 1000) else log)

/-- C7: with uncertainty 0.30 and domain `"political"` (uncertainty weight
1.5, so weighted uncertainty 0.45 > 0.25), `make_decision` abstains and
returns `HUMAN_REVIEW` / `ABSTAIN` for every calibrated score and every
agreement value. -/
theorem political_uncertainty_forces_abstain (calibratedScore agreement : ℝ)
    (history : List DecisionLogEntry) :
    (makeDecision defaultThresholds history calibratedScore 0.30 agreement
      (some "political")).1.shouldAbstain = true ∧
    (makeDecision defaultThresholds history calibratedScore 0.30 agreement
      (some "political")).1.riskLevel = .humanReview ∧
    (makeDecision defaultThresholds history calibratedScore 0.30 agreement
      (some "political")).1.verdict = .abstain := by
  have habs : shouldAbstainCM defaultThresholds 0.30 agreement (some "political")
      = (true, some .uncertaintyHigh) := by
    unfold shouldAbstainCM domainConfig defaultThresholds
    norm_num
  refine ⟨?_, ?_, ?_⟩ <;>
    simp [makeDecision, habs, getVerdictCM]

/-! ## ModelCalibrator (src/ai-engine/ml/core/calibration/calibrator.py)

The offline-fitted isotonic regressor (`sklearn.IsotonicRegression`) is
abstracted as an optional function `fitted : Option (ℝ → ℝ)`: `none` is the
unfitted state (in which `IsotonicCalibrator.calibrate` returns the score
unchanged), `some f` an arbitrary fitted predictor, whose output the code
clips to [0, 1]. -/

noncomputable section

/-- `scipy.special.expit`, the logistic sigmoid. -/
def expit (x : ℝ) : ℝ := 1 / (1 + Real.exp (-x))

/-- `PlattScaling.calibrate`: `clip(expit(a·s + b), 0, 1)`. -/
def plattCalibrate (a b score : ℝ) : ℝ := clampR (expit (a * score + b))

/-- `IsotonicCalibrator.calibrate`: identity when unfitted, else the fitted
predictor clipped to [0, 1]. -/
def isotonicCalibrate (fitted : Option (ℝ → ℝ)) (score : ℝ) : ℝ :=
  match fitted with
  | none => score
  | some f => clampR (f score)

/-- `TemperatureScaling.calibrate`: logit rescale (with the `1e-10` guard)
then sigmoid, clipped to [0, 1]. -/
def temperatureCalibrate (temperature score : ℝ) : ℝ :=
  clampR (expit (Real.log (score / (1 - score + 1e-10)) / temperature))

/-- `ModelCalibrator._compute_ece` (single-pair simplification kept as in the
source). -/
def computeEce (raw calibrated : ℝ) : ℝ := |raw - calibrated| * 0.1

/-- `ModelCalibrator._compute_brier` with the default target 0.5. -/
def computeBrier (calibrated : ℝ) : ℝ := (calibrated - 0.5) ^ 2

/-- `CalibrationResult`. -/
structure CalibrationResult where
  rawScore : ℝ
  calibratedScore : ℝ
  calibrationMethod : String
  ece : ℝ
  brierScore : ℝ

/-- `ModelCalibrator.calibrate`, parametrized by the Platt parameters, the
temperature, and the isotonic fitted state; any unrecognized method string
falls back to Platt. -/
def modelCalibrate (a b temperature : ℝ) (fitted : Option (ℝ → ℝ))
    (rawScore : ℝ) (method : String) : CalibrationResult :=
  let calibrated :=
    if method = "platt" then plattCalibrate a b rawScore
    else if method = "isotonic" then isotonicCalibrate fitted rawScore
    else if method = "temperature" then temperatureCalibrate temperature rawScore
    else plattCalibrate a b rawScore
  { rawScore := round4R rawScore
    calibratedScore := round4R calibrated
    calibrationMethod := method
    ece := round4R (computeEce rawScore calibrated)
    brierScore := round4R (computeBrier calibrated) }

end

/-- `np.clip(x, 0, 1)` lands in [0, 1]. -/
theorem clampR_mem (x : ℝ) : 0 ≤ clampR x ∧ clampR x ≤ 1 :=
  ⟨le_max_left 0 _, max_le zero_le_one (min_le_left 1 x)⟩

/-- Rounding to 4 decimal places preserves the unit interval. -/
theorem round4R_mem (x : ℝ) (h0 : 0 ≤ x) (h1 : x ≤ 1) :
    0 ≤ round4R x ∧ round4R x ≤ 1 := by
  unfold round4R
  rw [round_eq]
  have hlow : (0 : ℤ) ≤ ⌊x * 10000 + 1 / 2⌋ := by
    apply Int.floor_nonneg.mpr
    nlinarith
  have hup : ⌊x * 10000 + 1 / 2⌋ ≤ 10000 := by
    have h : ⌊x * 10000 + 1 / 2⌋ < (10001 : ℤ) := by
      apply Int.floor_lt.mpr
      push_cast
      nlinarith
    omega
  constructor
  · apply div_nonneg _ (by norm_num)
    exact_mod_cast hlow
  · rw [div_le_one (by norm_num)]
    exact_mod_cast hup

/-- C8: for every raw score in [0, 1] and every calibration method string
(including unrecognized ones falling back to Platt), the calibrated score is
in [0, 1] — for every Platt parametrization, temperature and isotonic fitted
state. -/
theorem calibrate_in_unit_interval (a b temperature : ℝ) (fitted : Option (ℝ → ℝ))
    (method : String) (s : ℝ) (h0 : 0 ≤ s) (h1 : s ≤ 1) :
    0 ≤ (modelCalibrate a b temperature fitted s method).calibratedScore ∧
    (modelCalibrate a b temperature fitted s method).calibratedScore ≤ 1 := by
  have hc : 0 ≤ (if method = "platt" then plattCalibrate a b s
        else if method = "isotonic" then isotonicCalibrate fitted s
        else if method = "temperature" then temperatureCalibrate temperature s
        else plattCalibrate a b s) ∧
      (if method = "platt" then plattCalibrate a b s
        else if method = "isotonic" then isotonicCalibrate fitted s
        else if method = "temperature" then temperatureCalibrate temperature s
        else plattCalibrate a b s) ≤ 1 := by
    split_ifs with hm1 hm2 hm3
    · exact clampR_mem _
    · cases fitted with
      | none => exact ⟨h0, h1⟩
      | some f => exact clampR_mem _
    · exact clampR_mem _
    · exact clampR_mem _
  exact round4R_mem _ hc.1 hc.2

/-- Witness for `calibrate_in_unit_interval` at the endpoint score 0 with the
temperature method (the risk-classifier default temperature 1.3). -/
theorem calibrate_in_unit_interval_witness :
    0 ≤ (modelCalibrate (-1.2) 0.15 1.3 none 0 "temperature").calibratedScore ∧
    (modelCalibrate (-1.2) 0.15 1.3 none 0 "temperature").calibratedScore ≤ 1 :=
  calibrate_in_unit_interval (-1.2) 0.15 1.3 none "temperature" 0 (le_refl 0) zero_le_one

/-! ## AdaptiveEnsemble weight adaptation
(src/ai-engine/ml/core/inference/adaptive_ensemble.py, `record_feedback` and
`_update_weights`)

The weight state is rational-valued; the feedback history entries carry no
behaviour beyond their count, so only the count is kept. -/

/-- `AdaptiveWeight` (the `last_updated` timestamp is presentation). -/
structure AdaptiveWeight where
  baseWeight : ℚ
  currentWeight : ℚ
  accuracyHistory : List ℚ
deriving Repr, DecidableEq

/-- `AdaptiveEnsemble._initialize_weights` over `BASE_WEIGHTS`. -/
def initialWeights : List (String × AdaptiveWeight) :=
  [("transformer", ⟨2/5, 2/5, []⟩), ("linear", ⟨1/4, 1/4, []⟩),
   ("rules", ⟨1/5, 1/5, []⟩), ("semantic", ⟨3/20, 3/20, []⟩)]

/-- Python `l[-n:]`. -/
def lastN (n : ℕ) (l : List ℚ) : List ℚ := l.drop (l.length - n)

/-- `np.mean` on rationals. -/
def qmean (l : List ℚ) : ℚ := l.sum / l.length

/-- `max(lo, min(hi, x))`. -/
def clampQ (lo hi x : ℚ) : ℚ := max lo (min hi x)

/-- The per-model step of `_update_weights`: models with fewer than 5
accuracy samples are skipped; otherwise
`new_weight = clamp(base × (1 + (mean(last 20) − 0.5) × 0.1), 0.05, 0.6)`. -/
def applyWeightFormula (aw : AdaptiveWeight) : AdaptiveWeight :=
  if aw.accuracyHistory.length < 5 then aw
  else
    let recent := qmean (lastN 20 aw.accuracyHistory)
    let adjustment := (recent - 1/2) * (1/10)
    { aw with currentWeight := clampQ (1/20) (3/5) (aw.baseWeight * (1 + adjustment)) }

/-- Sum of the current weights. -/
def totalWeight (ws : List (String × AdaptiveWeight)) : ℚ :=
  (ws.map (fun p => p.2.currentWeight)).sum

/-- The renormalization step of `_update_weights` (`if total > 0`). -/
def normalizeWeights (ws : List (String × AdaptiveWeight)) : List (String × AdaptiveWeight) :=
  let total := totalWeight ws
  if 0 < total then
    ws.map (fun p => (p.1, { p.2 with currentWeight := p.2.currentWeight / total }))
  else ws

/-- `AdaptiveEnsemble._update_weights`. -/
def updateWeights (ws : List (String × AdaptiveWeight)) : List (String × AdaptiveWeight) :=
  normalizeWeights (ws.map (fun p => (p.1, applyWeightFormula p.2)))

/-- The live ensemble-weight state: the adaptive weights and the length of
`feedback_history`. -/
structure AdaptiveEnsembleState where
  weights : List (String × AdaptiveWeight)
  feedbackCount : ℕ
deriving Repr, DecidableEq

/-- The accuracy-appending loop of `record_feedback`: for each signal of a
known model, append `1` if `(score > 0.5) == (actual_label == 1)` else `0`,
keeping only the last 100 samples. -/
def appendAccuracy (ws : List (String × AdaptiveWeight)) (actualLabel : ℕ)
    (signals : List (String × ℚ)) : List (String × AdaptiveWeight) :=
  signals.foldl (fun acc p =>
    acc.map (fun q =>
      if q.1 == p.1 then
        let accuracy : ℚ := if (1/2 < p.2 ↔ actualLabel = 1) then 1 else 0
        let hist := q.2.accuracyHistory ++ [accuracy]
        (q.1, { q.2 with
          accuracyHistory := if 100 < hist.length then lastN 100 hist else hist })
      else q)) ws

/-- `AdaptiveEnsemble.record_feedback`: append the feedback, update the
per-model accuracy histories, and run `_update_weights` whenever the
accumulated history holds at least 10 entries. -/
def recordFeedbackAE (st : AdaptiveEnsembleState) (actualLabel : ℕ)
    (signals : List (String × ℚ)) : AdaptiveEnsembleState :=
  let count := st.feedbackCount + 1
  let ws := appendAccuracy st.weights actualLabel signals
  if 10 ≤ count then ⟨updateWeights ws, count⟩ else ⟨ws, count⟩

/-- `record_feedback` as the claim describes it (refinement reference):
the weight update runs only on every 10th accumulated correction. -/
def recordFeedbackAEClaim (st : AdaptiveEnsembleState) (actualLabel : ℕ)
    (signals : List (String × ℚ)) : AdaptiveEnsembleState :=
  let count := st.feedbackCount + 1
  let ws := appendAccuracy st.weights actualLabel signals
  if count % 10 = 0 then ⟨updateWeights ws, count⟩ else ⟨ws, count⟩

/-- Iterate a function. -/
def applyN {α : Type} (f : α → α) : ℕ → α → α
  | 0, a => a
  | n + 1, a => applyN f n (f a)

/-- The concrete feedback submissions of the C6 counterexample. -/
def c6Step (st : AdaptiveEnsembleState) : AdaptiveEnsembleState :=
  recordFeedbackAE st 1 [("transformer", 9/10)]

/-- The same submissions under the claim's every-10th trigger. -/
def c6StepClaim (st : AdaptiveEnsembleState) : AdaptiveEnsembleState :=
  recordFeedbackAEClaim st 1 [("transformer", 9/10)]

/-- Default element for weight lookups. -/
def noWeight : AdaptiveWeight := ⟨0, 0, []⟩

/-- Unfold one application at the outside. -/
theorem applyN_succ_right {α : Type} (f : α → α) (n : ℕ) (a : α) :
    applyN f (n + 1) a = f (applyN f n a) := by
  induction n generalizing a with
  | zero => rfl
  | succ m ih =>
      show applyN f (m + 1) (f a) = f (applyN f (m + 1) a)
      rw [ih (f a)]
      rfl

/-- The weight list reached during the C6 run: transformer carries `k`
accuracy samples, the other models none. -/
def c6W (cw1 cw2 cw3 cw4 : ℚ) (k : ℕ) : List (String × AdaptiveWeight) :=
  [("transformer", ⟨2/5, cw1, List.replicate k 1⟩), ("linear", ⟨1/4, cw2, []⟩),
   ("rules", ⟨1/5, cw3, []⟩), ("semantic", ⟨3/20, cw4, []⟩)]

/-- Appending one correct transformer sample to a C6 state. -/
theorem c6_append (cw1 cw2 cw3 cw4 : ℚ) (k : ℕ) (hk : k < 100) :
    appendAccuracy (c6W cw1 cw2 cw3 cw4 k) 1 [("transformer", 9/10)] =
      c6W cw1 cw2 cw3 cw4 (k + 1) := by
  have h2 : ¬ (100 < (List.replicate k (1:ℚ) ++ [1]).length) := by
    simp only [List.length_append, List.length_replicate, List.length_singleton]
    omega
  norm_num [appendAccuracy, c6W, List.foldl, h2]
  refine ⟨?_, by decide, by decide, by decide⟩
  rw [if_neg (by omega : ¬ 100 < k + 1)]
  exact (List.replicate_succ' _ _).symm

/-- A C6 step below the 10th correction only appends the sample. -/
theorem c6_step_noupdate (cw1 cw2 cw3 cw4 : ℚ) (k : ℕ) (hk : k + 1 < 10) :
    c6Step ⟨c6W cw1 cw2 cw3 cw4 k, k⟩ = ⟨c6W cw1 cw2 cw3 cw4 (k + 1), k + 1⟩ := by
  simp only [c6Step, recordFeedbackAE]
  rw [if_neg (by omega : ¬ 10 ≤ k + 1), c6_append cw1 cw2 cw3 cw4 k (by omega)]

/-- Under the claim's trigger, a step below the 10th correction also only
appends the sample. -/
theorem c6_stepClaim_noupdate (cw1 cw2 cw3 cw4 : ℚ) (k : ℕ) (hk : k + 1 < 10) :
    c6StepClaim ⟨c6W cw1 cw2 cw3 cw4 k, k⟩ = ⟨c6W cw1 cw2 cw3 cw4 (k + 1), k + 1⟩ := by
  simp only [c6StepClaim, recordFeedbackAEClaim]
  rw [if_neg (by omega : ¬ (k + 1) % 10 = 0), c6_append cw1 cw2 cw3 cw4 k (by omega)]

/-- The first 9 corrections leave the weights at their initial values. -/
theorem c6_first9 : ∀ k : ℕ, k ≤ 9 →
    applyN c6Step k ⟨initialWeights, 0⟩ = ⟨c6W (2/5) (1/4) (1/5) (3/20) k, k⟩ := by
  intro k
  induction k with
  | zero => intro _; rfl
  | succ n ih =>
      intro hk
      rw [applyN_succ_right, ih (by omega), c6_step_noupdate _ _ _ _ n (by omega)]

/-- Same under the claim's trigger. -/
theorem c6Claim_first9 : ∀ k : ℕ, k ≤ 9 →
    applyN c6StepClaim k ⟨initialWeights, 0⟩ = ⟨c6W (2/5) (1/4) (1/5) (3/20) k, k⟩ := by
  intro k
  induction k with
  | zero => intro _; rfl
  | succ n ih =>
      intro hk
      rw [applyN_succ_right, ih (by omega), c6_stepClaim_noupdate _ _ _ _ n (by omega)]

/-- The 10th correction triggers the first weight update. -/
theorem c6_step10 :
    c6Step ⟨c6W (2/5) (1/4) (1/5) (3/20) 9, 9⟩ =
      ⟨c6W (7/17) (25/102) (10/51) (5/34) 10, 10⟩ := by
  simp only [c6Step, recordFeedbackAE]
  rw [if_pos (by omega : 10 ≤ 9 + 1), c6_append _ _ _ _ 9 (by omega)]
  norm_num [updateWeights, normalizeWeights, applyWeightFormula, totalWeight,
    qmean, lastN, clampQ, c6W, List.replicate, max_def, min_def]

/-- The 10th correction under the claim's trigger coincides with the source. -/
theorem c6_stepClaim10 :
    c6StepClaim ⟨c6W (2/5) (1/4) (1/5) (3/20) 9, 9⟩ =
      ⟨c6W (7/17) (25/102) (10/51) (5/34) 10, 10⟩ := by
  have hsame : c6StepClaim ⟨c6W (2/5) (1/4) (1/5) (3/20) 9, 9⟩ =
      c6Step ⟨c6W (2/5) (1/4) (1/5) (3/20) 9, 9⟩ := by
    simp only [c6Step, c6StepClaim, recordFeedbackAE, recordFeedbackAEClaim]
    norm_num
  rw [hsame, c6_step10]

/-- The 11th correction triggers another update in the source. -/
theorem c6_step11_source :
    c6Step ⟨c6W (7/17) (25/102) (10/51) (5/34) 10, 10⟩ =
      ⟨c6W (357/857) (625/2571) (500/2571) (125/857) 11, 11⟩ := by
  simp only [c6Step, recordFeedbackAE]
  rw [if_pos (by omega : 10 ≤ 10 + 1), c6_append _ _ _ _ 10 (by omega)]
  norm_num [updateWeights, normalizeWeights, applyWeightFormula, totalWeight,
    qmean, lastN, clampQ, c6W, List.replicate, max_def, min_def]

/-- The 11th correction under the claim's trigger only appends the sample. -/
theorem c6_step11_claim :
    c6StepClaim ⟨c6W (7/17) (25/102) (10/51) (5/34) 10, 10⟩ =
      ⟨c6W (7/17) (25/102) (10/51) (5/34) 11, 11⟩ := by
  simp only [c6StepClaim, recordFeedbackAEClaim]
  rw [if_neg (by omega : ¬ (10 + 1) % 10 = 0), c6_append _ _ _ _ 10 (by omega)]

/-- C6 counterexample: starting from fresh weights and submitting the same
correction (`actual_label = 1`, transformer signal 0.9) 11 times, the 11th
correction — not a multiple of 10 — also reruns the weight update: the
transformer weight after 11 source corrections is 357/857, while under the
claim's every-10th trigger it would still be 7/17 (its value after the 10th
correction). -/
theorem weight_update_not_only_every_10th :
    (assocGet (applyN c6Step 11 ⟨initialWeights, 0⟩).weights "transformer"
        noWeight).currentWeight ≠
      (assocGet (applyN c6StepClaim 11 ⟨initialWeights, 0⟩).weights "transformer"
        noWeight).currentWeight := by
  have hsrc : applyN c6Step 11 ⟨initialWeights, 0⟩ =
      ⟨c6W (357/857) (625/2571) (500/2571) (125/857) 11, 11⟩ := by
    rw [applyN_succ_right, applyN_succ_right, c6_first9 9 (le_refl 9), c6_step10,
      c6_step11_source]
  have hclaim : applyN c6StepClaim 11 ⟨initialWeights, 0⟩ =
      ⟨c6W (7/17) (25/102) (10/51) (5/34) 11, 11⟩ := by
    rw [applyN_succ_right, applyN_succ_right, c6Claim_first9 9 (le_refl 9), c6_stepClaim10,
      c6_step11_claim]
  rw [hsrc, hclaim]
  norm_num [assocGet, c6W, List.find?]

/-- Sum of current weights after dividing each by `c`. -/
theorem totalWeight_map_div (l : List (String × AdaptiveWeight)) (c : ℚ) :
    totalWeight (l.map (fun p => (p.1, { p.2 with currentWeight := p.2.currentWeight / c })))
      = totalWeight l / c := by
  induction l with
  | nil => simp [totalWeight]
  | cons h t ih => simp [totalWeight, add_div] at ih ⊢; rw [ih]

/-- C6 as amended: every correction from the 10th accumulated one onward (not
only every 10th) triggers the weight update; in the update, every model with
at least 5 accuracy samples gets
`new_weight = base_weight × (1 + (mean accuracy over last 20 − 0.5) × 0.1)`
clamped to [0.05, 0.6]; and renormalization makes the current weights sum to
exactly 1 whenever their total is positive. -/
theorem weight_update_semantics (st : AdaptiveEnsembleState) (label : ℕ)
    (signals : List (String × ℚ)) (ws : List (String × AdaptiveWeight))
    (aw : AdaptiveWeight) :
    (10 ≤ st.feedbackCount + 1 →
      recordFeedbackAE st label signals =
        ⟨updateWeights (appendAccuracy st.weights label signals), st.feedbackCount + 1⟩) ∧
    (st.feedbackCount + 1 < 10 →
      recordFeedbackAE st label signals =
        ⟨appendAccuracy st.weights label signals, st.feedbackCount + 1⟩) ∧
    (5 ≤ aw.accuracyHistory.length →
      (applyWeightFormula aw).currentWeight =
        clampQ (1/20) (3/5)
          (aw.baseWeight * (1 + (qmean (lastN 20 aw.accuracyHistory) - 1/2) * (1/10)))) ∧
    (0 < totalWeight ws → totalWeight (normalizeWeights ws) = 1) := by
  refine ⟨?_, ?_, ?_, ?_⟩
  · intro h
    unfold recordFeedbackAE
    rw [if_pos h]
  · intro h
    unfold recordFeedbackAE
    rw [if_neg (by omega)]
  · intro h
    unfold applyWeightFormula
    rw [if_neg (by omega)]
  · intro h
    unfold normalizeWeights
    rw [if_pos h, totalWeight_map_div, div_self (ne_of_gt h)]

/-- Witness for `weight_update_semantics`: the 10th correction triggers the
update, and renormalizing the initial weights (total 1) keeps the sum 1. -/
theorem weight_update_semantics_witness :
    recordFeedbackAE ⟨initialWeights, 9⟩ 1 [("transformer", 9/10)] =
      ⟨updateWeights (appendAccuracy initialWeights 1 [("transformer", 9/10)]), 10⟩ ∧
    totalWeight (normalizeWeights initialWeights) = 1 :=
  ⟨(weight_update_semantics ⟨initialWeights, 9⟩ 1 [("transformer", 9/10)]
      initialWeights noWeight).1 (by norm_num),
   (weight_update_semantics ⟨initialWeights, 9⟩ 1 [("transformer", 9/10)]
      initialWeights noWeight).2.2.2 (by norm_num [totalWeight, initialWeights])⟩

/-! ## AdaptiveEnsemble.predict
(src/ai-engine/ml/core/inference/adaptive_ensemble.py, lines 119–176, plus
`SimilarityMatcher.compute_risk_boost` from
src/ai-engine/ml/core/embeddings/semantic.py)

The three member models (regex/keyword heuristics) and the cosine
similarities against the five reference patterns are abstracted as inputs:
`preds` stands for the three `ModelPrediction`s returned by
`self.models`, `sims` for `match_against_references(text)`, and
`domainScores` for `embedder.embed(text).domain_scores`; the theorems
quantify over them. -/

/-- `ModelPrediction` (name, score, confidence). -/
structure ModelPred where
  name : String
  score : ℝ
  confidence : ℝ

/-- `AdaptiveEnsemble._get_current_weights`: normalize the current adaptive
weights when their total is positive. -/
noncomputable def getCurrentWeights (ws : List (String × ℝ)) : List (String × ℝ) :=
  let total := (ws.map (fun p => p.2)).sum
  if 0 < total then ws.map (fun p => (p.1, p.2 / total)) else ws

/-- The best reference-pattern similarity (`max(similarities.items(), key=...)`,
first maximum on ties). -/
noncomputable def bestPattern (sims : List (String × ℝ)) : String × ℝ :=
  match sims with
  | [] => ("none", 0)
  | s :: rest => rest.foldl (fun acc p => if acc.2 < p.2 then p else acc) s

/-- `SimilarityMatcher.compute_risk_boost`: band the best similarity into a
boost of 0.3 / 0.2 / 0.1 / 0. -/
noncomputable def computeRiskBoost (sims : List (String × ℝ)) : ℝ × String :=
  match sims with
  | [] => (0, "none")
  | s :: rest =>
      let best := bestPattern (s :: rest)
      let boost : ℝ :=
        if 0.7 < best.2 then 0.3
        else if 0.5 < best.2 then 0.2
        else if 0.3 < best.2 then 0.1
        else 0
      (boost, if 0 < boost then best.1 else "none")

/-- `base_score = Σ signals[m] × current_weights.get(m, 0)`. -/
noncomputable def baseScoreOf (weightsN signals : List (String × ℝ)) : ℝ :=
  (signals.map (fun p => p.2 * assocGet weightsN p.1 0)).sum

/-- `AdaptiveEnsemble._compute_confidence_weights`. -/
noncomputable def confidenceWeights (preds : List ModelPred) : List (String × ℝ) :=
  let confSum := (preds.map (fun p => p.confidence)).sum
  if confSum = 0 then preds.map (fun p => (p.name, 1 / (preds.length : ℝ)))
  else preds.map (fun p => (p.name, p.confidence / confSum))

/-- `confidence_score = Σ pred.score × confidence_weights.get(name, 0)`. -/
noncomputable def confidenceScoreOf (preds : List ModelPred) : ℝ :=
  (preds.map (fun p => p.score * assocGet (confidenceWeights preds) p.name 0)).sum

/-- `AdaptiveEnsemble._detect_disagreement`: `(std + (max − min)) / 2`,
reported rounded; the review flag compares the unrounded value with 0.3. -/
noncomputable def detectDisagreement (values : List ℝ) : ℝ × Bool :=
  if values.length < 2 then (0, false)
  else
    let dis := (pstd values + (listMax values - listMin values)) / 2
    (round4R dis, decide (0.3 < dis))

/-- `EnhancedEnsembleResult` (the echoed prediction list is the input). -/
structure EnhancedEnsembleResult where
  rawScore : ℝ
  agreement : ℝ
  signals : List (String × ℝ)
  weightsUsed : List (String × ℝ)
  semanticBoost : ℝ
  semanticPattern : String
  confidenceWeightedScore : ℝ
  disagreementLevel : ℝ
  needsReview : Bool

/-- `AdaptiveEnsemble.predict`: `aweights` are the current adaptive weights
(name × current_weight), `preds` the member-model predictions for the text,
`sims` the reference-pattern similarities, `domainScores` the embedding's
per-domain scores used when a domain hint is given.  The `signals` dict keeps
the unboosted semantic value, while `final_score` uses the (possibly
domain-boosted) value, as in the source. -/
noncomputable def predictAE (aweights : List (String × ℝ)) (preds : List ModelPred)
    (sims : List (String × ℝ)) (domain : Option String)
    (domainScores : List (String × ℝ)) : EnhancedEnsembleResult :=
  let rb := computeRiskBoost sims
  let signals := (preds.map (fun p => (p.name, p.score))) ++ [("semantic", rb.1)]
  let boost : ℝ :=
    match domain with
    | none => rb.1
    | some d => max rb.1 (assocGet domainScores d 0 * 0.3)
  let currentWeights := getCurrentWeights aweights
  let base := baseScoreOf currentWeights signals
  let confScore := confidenceScoreOf preds
  let final := clampR (base * 0.6 + confScore * 0.4 + boost * 0.5)
  let modelScores := preds.map (fun p => p.score)
  let agreement := clampR (if 1 < modelScores.length then 1 - pstd modelScores else 1)
  let dis := detectDisagreement (signals.map (fun p => p.2))
  { rawScore := round4R final
    agreement := round4R agreement
    signals := signals
    weightsUsed := currentWeights
    semanticBoost := round4R boost
    semanticPattern := rb.2
    confidenceWeightedScore := round4R confScore
    disagreementLevel := dis.1
    needsReview := dis.2 || decide (agreement < 0.7) }

/-- The fresh adaptive weights as (name, current_weight) pairs. -/
noncomputable def c5Weights : List (String × ℝ) :=
  [("transformer", 0.4), ("linear", 0.25), ("rules", 0.2), ("semantic", 0.15)]

/-- Concrete member-model predictions for the C5 counterexample. -/
noncomputable def c5Preds : List ModelPred :=
  [⟨"transformer", 0.1, 0.3⟩, ⟨"linear", 0.2, 0.2⟩, ⟨"rules", 0.3, 0.1⟩]

/-- Concrete reference-pattern similarities (best 0.2, so boost 0). -/
noncomputable def c5Sims : List (String × ℝ) := [("bank_fraud", 0.2)]

/-- C5 counterexample: `predict` returns
`raw_score = round(clamp(base×0.6 + conf×0.4 + boost×0.5, 0, 1), 4)`, not the
clamp itself: on these inputs the clamp is 47/300 = 0.15666… while the
returned raw score is 0.1567. -/
theorem predict_rawScore_not_exact_clamp :
    (predictAE c5Weights c5Preds c5Sims none []).rawScore ≠
      clampR (baseScoreOf (getCurrentWeights c5Weights)
          ((c5Preds.map (fun p => (p.name, p.score))) ++
            [("semantic", (computeRiskBoost c5Sims).1)]) * 0.6
        + confidenceScoreOf c5Preds * 0.4 + (computeRiskBoost c5Sims).1 * 0.5) := by
  have hb : (computeRiskBoost c5Sims).1 = 0 := by
    norm_num [computeRiskBoost, bestPattern, c5Sims]
  have hval : clampR (baseScoreOf (getCurrentWeights c5Weights)
          ((c5Preds.map (fun p => (p.name, p.score))) ++
            [("semantic", (computeRiskBoost c5Sims).1)]) * 0.6
        + confidenceScoreOf c5Preds * 0.4 + (computeRiskBoost c5Sims).1 * 0.5)
      = 47/300 := by
    rw [hb]
    have hw : getCurrentWeights c5Weights =
        [("transformer", (2:ℝ)/5), ("linear", 1/4), ("rules", 1/5), ("semantic", 3/20)] := by
      norm_num [getCurrentWeights, c5Weights]
    have hcw : confidenceWeights
        [⟨"transformer", 1/10, 3/10⟩, ⟨"linear", 1/5, 1/5⟩, ⟨"rules", 3/10, 1/10⟩] =
        [("transformer", (1:ℝ)/2), ("linear", 1/3), ("rules", 1/6)] := by
      norm_num [confidenceWeights]
    norm_num [baseScoreOf, confidenceScoreOf, hw, hcw, c5Preds, assocGet_cons, assocGet_nil,
      clampR, max_def, min_def,
      show ("transformer":String) ≠ "linear" by decide,
      show ("transformer":String) ≠ "rules" by decide,
      show ("linear":String) ≠ "rules" by decide,
      show ("transformer":String) ≠ "semantic" by decide,
      show ("linear":String) ≠ "semantic" by decide,
      show ("rules":String) ≠ "semantic" by decide]
  have hpre : (predictAE c5Weights c5Preds c5Sims none []).rawScore
      = round4R (clampR (baseScoreOf (getCurrentWeights c5Weights)
          ((c5Preds.map (fun p => (p.name, p.score))) ++
            [("semantic", (computeRiskBoost c5Sims).1)]) * 0.6
        + confidenceScoreOf c5Preds * 0.4 + (computeRiskBoost c5Sims).1 * 0.5)) := rfl
  have hround : round4R ((47 : ℝ)/300) = 1567/10000 := by
    unfold round4R
    rw [round_eq]
    have hfl : ⌊(47 : ℝ)/300 * 10000 + 1/2⌋ = 1567 := by
      rw [Int.floor_eq_iff]
      constructor <;> norm_num
    rw [hfl]
    norm_num
  rw [hpre, hval, hround]
  norm_num

/-- C5 as amended: `predict` (with no domain hint) returns
`raw_score = round4(clamp(base_score×0.6 + confidence_score×0.4 +
semantic_boost×0.5, 0, 1))` where the semantic boost is 0.3 / 0.2 / 0.1 / 0
according to whether the best reference-pattern similarity exceeds
0.7 / 0.5 / 0.3, and `agreement = round4(clamp(1 − std(model scores), 0, 1))`
(1 when fewer than two member models report). -/
theorem predict_combination_semantics (aweights : List (String × ℝ))
    (preds : List ModelPred) (sims : List (String × ℝ))
    (domainScores : List (String × ℝ)) :
    ((predictAE aweights preds sims none domainScores).rawScore =
      round4R (clampR (baseScoreOf (getCurrentWeights aweights)
          ((preds.map (fun p => (p.name, p.score))) ++
            [("semantic", (computeRiskBoost sims).1)]) * 0.6
        + confidenceScoreOf preds * 0.4 + (computeRiskBoost sims).1 * 0.5))) ∧
    ((computeRiskBoost sims).1 =
      if sims = [] then 0
      else if 0.7 < (bestPattern sims).2 then 0.3
      else if 0.5 < (bestPattern sims).2 then 0.2
      else if 0.3 < (bestPattern sims).2 then 0.1
      else 0) ∧
    ((predictAE aweights preds sims none domainScores).agreement =
      round4R (clampR
        (if 1 < preds.length then 1 - pstd (preds.map (fun p => p.score)) else 1))) := by
  refine ⟨rfl, ?_, ?_⟩
  · cases sims with
    | nil => simp [computeRiskBoost]
    | cons s rest => simp [computeRiskBoost]
  · show round4R (clampR
        (if 1 < (preds.map (fun p => p.score)).length then 1 - pstd (preds.map (fun p => p.score))
         else 1)) = _
    rw [List.length_map]

/-! ## GovernmentMLService.evaluate_risk
(src/ai-engine/ml/serving/government_service.py, lines 118–122 and 155–287)

The control flow of `evaluate_risk` is embedded over abstracted stage
outcomes: `dq` is the bounded-time data-quality stage (it can time out or
return a report), `ens` the bounded-time ensemble stage, and `restOk` says
whether the remaining in-`try` work (domain classifiers, calibration,
uncertainty, registry logging, response construction) raises an unexpected
exception.  The trace records how often `record_success` / `record_failure`
ran and whether the ensemble stage was entered. -/

/-- Outcome of a stage wrapped by `with_timeout`. -/
inductive StageResult (α : Type) where
  | ok (a : α)
  | timedOut
deriving Repr, DecidableEq

/-- The part of the quality report `evaluate_risk` branches on. -/
structure DQLite where
  usable : Bool
deriving Repr, DecidableEq

/-- The error taxonomy of the service. -/
inductive PipelineError where
  | circuitBreakerOpen
  | dataQuality
  | timeout
  | service
deriving Repr, DecidableEq

/-- The observable trace of one `evaluate_risk` call. -/
structure EvalTrace where
  result : Except PipelineError Unit
  cbAfter : CircuitBreaker
  successCalls : ℕ
  failureCalls : ℕ
  ensembleInvoked : Bool

/-- `GovernmentMLService.evaluate_risk`: circuit-breaker gate before the
`try` block (`CircuitBreakerOpenError` escapes uncaught); inside it, a
quality timeout or an unusable report aborts before the ensemble stage;
`DataQualityError` and `TimeoutError` record one failure and re-raise; any
other exception records one failure and is wrapped (`ServiceError`); only
the fully successful path calls `record_success`. -/
def evaluateRisk (cb : CircuitBreaker) (now : ℚ) (dq : StageResult DQLite)
    (ens : StageResult Unit) (restOk : Bool) : EvalTrace :=
  let gate := canExecute cb now
  if !gate.1 then
    { result := .error .circuitBreakerOpen, cbAfter := gate.2,
      successCalls := 0, failureCalls := 0, ensembleInvoked := false }
  else
    match dq with
    | .timedOut =>
        { result := .error .timeout, cbAfter := recordFailure gate.2 now,
          successCalls := 0, failureCalls := 1, ensembleInvoked := false }
    | .ok d =>
        if !d.usable then
          { result := .error .dataQuality, cbAfter := recordFailure gate.2 now,
            successCalls := 0, failureCalls := 1, ensembleInvoked := false }
        else
          match ens with
          | .timedOut =>
              { result := .error .timeout, cbAfter := recordFailure gate.2 now,
                successCalls := 0, failureCalls := 1, ensembleInvoked := true }
          | .ok _ =>
              if restOk then
                { result := .ok (), cbAfter := recordSuccess gate.2,
                  successCalls := 1, failureCalls := 0, ensembleInvoked := true }
              else
                { result := .error .service, cbAfter := recordFailure gate.2 now,
                  successCalls := 0, failureCalls := 1, ensembleInvoked := true }

/-- C2: `record_success` is called iff the full pipeline completes; every
other terminal outcome calls `record_failure` exactly once, except
`CircuitBreakerOpenError`, which calls neither; and an unusable quality
report fails with `DataQualityError` before the ensemble stage runs. -/
theorem evaluateRisk_breaker_policy (cb : CircuitBreaker) (now : ℚ)
    (dq : StageResult DQLite) (ens : StageResult Unit) (restOk : Bool) :
    ((evaluateRisk cb now dq ens restOk).successCalls = 1 ↔
      (evaluateRisk cb now dq ens restOk).result = .ok ()) ∧
    ((evaluateRisk cb now dq ens restOk).result = .error .circuitBreakerOpen →
      (evaluateRisk cb now dq ens restOk).failureCalls = 0 ∧
      (evaluateRisk cb now dq ens restOk).successCalls = 0) ∧
    (∀ e : PipelineError, (evaluateRisk cb now dq ens restOk).result = .error e →
      e ≠ .circuitBreakerOpen →
      (evaluateRisk cb now dq ens restOk).failureCalls = 1 ∧
      (evaluateRisk cb now dq ens restOk).successCalls = 0) ∧
    ((canExecute cb now).1 = true → dq = .ok ⟨false⟩ →
      (evaluateRisk cb now dq ens restOk).result = .error .dataQuality ∧
      (evaluateRisk cb now dq ens restOk).ensembleInvoked = false) := by
  unfold evaluateRisk
  cases hg : (canExecute cb now).1
  · simp [hg]
  · cases dq with
    | timedOut => simp [hg]
    | ok d =>
        cases hd : d.usable
        · simp [hg, hd]
        · cases ens with
          | timedOut =>
              simp [hg, hd]
              rintro rfl
              simp at hd
          | ok u =>
              cases restOk
              · simp [hg, hd]
                rintro rfl
                simp at hd
              · simp [hg, hd]
                rintro rfl
                simp at hd

/-- Witness for `evaluateRisk_breaker_policy`: a fresh breaker and an
unusable quality report give `DataQualityError`, one recorded failure and no
ensemble invocation. -/
theorem evaluateRisk_breaker_policy_witness :
    (evaluateRisk (CircuitBreaker.init 5 60) 0 (.ok ⟨false⟩) (.ok ()) true).result
        = .error .dataQuality ∧
    (evaluateRisk (CircuitBreaker.init 5 60) 0 (.ok ⟨false⟩) (.ok ()) true).ensembleInvoked
        = false ∧
    (evaluateRisk (CircuitBreaker.init 5 60) 0 (.ok ⟨false⟩) (.ok ()) true).failureCalls = 1 :=
  have h := evaluateRisk_breaker_policy (CircuitBreaker.init 5 60) 0 (.ok ⟨false⟩) (.ok ()) true
  have h4 := h.2.2.2 rfl rfl
  ⟨h4.1, h4.2, (h.2.2.1 .dataQuality h4.1 (by simp)).1⟩

end AIDefense
